import Mathlib

/-!
Shallow embedding of the register abstraction layer implemented in
`lldb/source/Target/RegisterContext.cpp`, together with theorems checking the
natural-language specification of that layer against the code.

The external collaborators of `RegisterContext` (the process memory backend,
the DWARF bytecode evaluator, the abstract per-backend `ReadRegister` /
`WriteRegister` primitives, and the `RegisterValue` conversion routines that
live outside this translation unit) are modelled as explicit parameters, so
that every control-flow decision made by the code of `RegisterContext.cpp`
itself is reproduced faithfully.
-/

namespace LLDBReg

/-- The value of `UINT32_MAX`, which is also `LLDB_INVALID_REGNUM`. -/
def UINT32_MAX : Nat := 4294967295

/-- Sentinel register number meaning "no register" (`LLDB_INVALID_REGNUM`). -/
def LLDB_INVALID_REGNUM : Nat := UINT32_MAX

/-- The value of `UINT64_MAX`, which is also `LLDB_INVALID_ADDRESS`. -/
def UINT64_MAX : Nat := 18446744073709551615

/-- Sentinel address (`LLDB_INVALID_ADDRESS`), the default fail value of `GetPC`. -/
def LLDB_INVALID_ADDRESS : Nat := UINT64_MAX

/-- Generic-role register number of the program counter (`LLDB_REGNUM_GENERIC_PC`). -/
def LLDB_REGNUM_GENERIC_PC : Nat := 0

/-- The register numbering kinds (`lldb::RegisterKind`): EH-frame numbering,
DWARF numbering, generic roles, process-plugin numbering and LLDB's own index. -/
inductive RegisterKind where
  | ehframe
  | dwarf
  | generic
  | processPlugin
  | lldb
deriving DecidableEq

/-- Byte order of the target (`lldb::ByteOrder`, restricted to the two concrete orders). -/
inductive ByteOrder where
  | little
  | big
deriving DecidableEq

/-- A register descriptor (`lldb_private::RegisterInfo`): name, alternate name,
byte size, the per-kind register numbers (`kinds` array), the value-register
list (`value_regs`; empty models the null pointer, i.e. a non-pseudo register)
and the length of the dynamic-size DWARF expression. -/
structure RegisterInfo where
  name : String
  alt_name : String
  byte_size : Nat
  kinds : RegisterKind → Nat
  value_regs : List Nat
  dynamic_size_dwarf_len : Nat

/-- A register value as manipulated by this layer: an unsigned payload tagged
with its logical byte size.  The byte-level `RegisterValue` operations
implemented outside `RegisterContext.cpp` are modelled abstractly. -/
structure RegisterValue where
  uval : Nat
  byte_size : Nat
deriving DecidableEq

/-- Modelled from the spec: `RegisterValue` "supports conversion to/from an
unsigned 64-bit integer"; `SetUInt(uval, byte_size)` (implemented in
`RegisterValue.cpp`, not part of the given sources) stores the value truncated
to the register's byte size and reports success. -/
def RegisterValue.setUInt (uval : Nat) (byte_size : Nat) : Option RegisterValue :=
  some ⟨uval % 2 ^ (8 * byte_size), byte_size⟩

/-- Modelled from the spec: `RegisterValue::GetAsUInt64` (implemented in
`RegisterValue.cpp`, not part of the given sources) returns the stored
unsigned payload. -/
def RegisterValue.getAsUInt64 (v : RegisterValue) : Nat :=
  v.uval

/-! ### `RegisterContext::UpdateDynamicRegisterSize` (claim C1)

The DWARF bytecode evaluator is an external collaborator; it is modelled by
its outcome: `some r` when `DWARFExpression::Evaluate` returns `true` and the
scalar result converts (via `SInt`) to `r`, and `none` when it fails. -/

/-- Embeds `RegisterContext::UpdateDynamicRegisterSize`: on evaluator success
the scalar result `0` maps to 4 bytes, `1` to 8 bytes, anything else to the
descriptor's static `byte_size`; on evaluator failure the error is only
printed and the static `byte_size` is returned. -/
def UpdateDynamicRegisterSize (eval_outcome : Option Int) (reg_info : RegisterInfo) : Nat :=
  match eval_outcome with
  | some expr_result =>
      if expr_result = 0 then 4
      else if expr_result = 1 then 8
      else reg_info.byte_size
  | none => reg_info.byte_size

/-! ### `RegisterContext::InvalidateIfNeeded` (claim C2)

The mutable context state touched by `InvalidateIfNeeded` is its cached stop
id `m_stop_id`; the owning process is modelled by `Option Nat`: `some sid`
when `m_thread.GetProcess()` yields a process whose `GetStopID()` is `sid`,
`none` when the process is gone.  The embedding returns the pair
(did `InvalidateAllRegisters` run, new `m_stop_id`). -/

/-- Embeds `RegisterContext::InvalidateIfNeeded`. -/
def InvalidateIfNeeded (process : Option Nat) (force : Bool) (m_stop_id : Nat) :
    Bool × Nat :=
  let process_stop_id : Nat :=
    match process with
    | some sid => sid
    | none => UINT32_MAX
  let invalidate0 : Bool :=
    match process with
    | some _ => force
    | none => true
  let invalidate : Bool :=
    if invalidate0 then true else decide (process_stop_id ≠ m_stop_id)
  if invalidate then (true, process_stop_id) else (false, m_stop_id)

/-! ### `RegisterContext::ConvertBetweenRegisterKinds` (claim C3)

The register table reached through `GetRegisterCount` /
`GetRegisterInfoAtIndex` is modelled as the list of its descriptors; the
`target_regnum` out-parameter together with the boolean return is modelled as
an `Option Nat`. -/

/-- Embeds `RegisterContext::ConvertBetweenRegisterKinds`: linear scan over
the descriptor table; the first descriptor whose `kinds[source_rk]` equals
`source_regnum` decides the result, succeeding exactly when its
`kinds[target_rk]` is not `LLDB_INVALID_REGNUM`. -/
def ConvertBetweenRegisterKinds (regs : List RegisterInfo) (source_rk : RegisterKind)
    (source_regnum : Nat) (target_rk : RegisterKind) : Option Nat :=
  match regs with
  | [] => none
  | reg_info :: rest =>
      if reg_info.kinds source_rk = source_regnum then
        if reg_info.kinds target_rk ≠ LLDB_INVALID_REGNUM then
          some (reg_info.kinds target_rk)
        else
          none
      else
        ConvertBetweenRegisterKinds rest source_rk source_regnum target_rk

/-! ### Memory-backed register transfer (claims C4 and C5)

`Status` mirrors the distinct error reports produced by
`ReadRegisterValueFromMemory` and `WriteRegisterValueToMemory`; errors
produced by the external collaborators (the process backend and the
`RegisterValue` conversion routines) are wrapped in their own constructors,
so that "an error distinct from a backend-reported failure" is a statement
about constructors. -/

/-- Outcome of a memory-backed register transfer, one constructor per
distinct error report in `RegisterContext.cpp` plus wrappers for
collaborator-produced errors. -/
inductive Status where
  /-- No error: `error.Success()` holds. -/
  | success
  /-- The report "invalid register info argument." -/
  | invalidRegisterInfo
  /-- The report "register too small to receive memory data". -/
  | tooBigForRegisterValue
  /-- The report "%u bytes is too big to store in register %s (%u bytes)". -/
  | tooBigForRegister (src_len : Nat) (dst_len : Nat)
  /-- The report "read %u of %u bytes". -/
  | shortRead (got : Nat) (want : Nat)
  /-- The report "only wrote %u of %u bytes". -/
  | shortWrite (got : Nat) (want : Nat)
  /-- The report "byte copy failed." -/
  | byteCopyFailed
  /-- The report "invalid process". -/
  | invalidProcess
  /-- An error the process memory backend put into the `Status` out-parameter. -/
  | backendError (msg : String)
  /-- An error produced by a `RegisterValue` conversion routine. -/
  | convError (msg : String)
deriving DecidableEq

/-- Modelled from the spec: the fixed capacity of a `RegisterValue` buffer
(`RegisterValue::kMaxRegisterByteSize`, defined in `RegisterValue.h`, not part
of the given sources): "a small fixed-capacity byte buffer (bounded, e.g. up
to the largest vector register width)". -/
def kMaxRegisterByteSize : Nat := 64

/-- The process memory backend: `ReadMemory`/`WriteMemory` return the number
of bytes transferred and fill a `Status` out-parameter (`Status.success` when
the backend signals success); the buffer contents are irrelevant to the
claims and are not modelled. -/
structure MemBackend where
  readMemory : Nat → Nat → Nat × Status
  writeMemory : Nat → Nat → Nat × Status
  byteOrder : ByteOrder

/-- Result of `ReadRegisterValueFromMemory`: the returned `Status`, the final
contents of the `reg_value` out-parameter, and whether the process memory
backend was consulted (`ReadMemory` called). -/
structure ReadFromMemResult where
  error : Status
  reg_value : RegisterValue
  mem_consulted : Bool
deriving DecidableEq

/-- Embeds `RegisterContext::ReadRegisterValueFromMemory`.  The external
`RegisterValue::SetFromMemoryData` is the parameter `set_from_memory_data`,
mapping (descriptor, `src_len`, byte order) to the new register value and the
`Status` it leaves in the out-parameter. -/
def ReadRegisterValueFromMemory
    (process : Option MemBackend)
    (set_from_memory_data : RegisterInfo → Nat → ByteOrder → RegisterValue × Status)
    (reg_info : Option RegisterInfo) (src_addr : Nat) (src_len : Nat)
    (reg_value : RegisterValue) : ReadFromMemResult :=
  match reg_info with
  | none => ⟨Status.invalidRegisterInfo, reg_value, false⟩
  | some ri =>
      if src_len > kMaxRegisterByteSize then
        ⟨Status.tooBigForRegisterValue, reg_value, false⟩
      else
        let dst_len := ri.byte_size
        if src_len > dst_len then
          ⟨Status.tooBigForRegister src_len dst_len, reg_value, false⟩
        else
          match process with
          | some p =>
              let rm := p.readMemory src_addr src_len
              if rm.1 ≠ src_len then
                if rm.2 = Status.success then
                  ⟨Status.shortRead rm.1 src_len, reg_value, true⟩
                else
                  ⟨rm.2, reg_value, true⟩
              else
                let sr := set_from_memory_data ri src_len p.byteOrder
                ⟨sr.2, sr.1, true⟩
          | none => ⟨Status.invalidProcess, reg_value, false⟩

/-- Embeds `RegisterContext::WriteRegisterValueToMemory`.  The external
`RegisterValue::GetAsMemoryData` is the parameter `get_as_memory_data`,
mapping (descriptor, `dst_len`, byte order) to the number of bytes copied
into the local buffer and the `Status` it leaves in the out-parameter. -/
def WriteRegisterValueToMemory
    (process : Option MemBackend)
    (get_as_memory_data : Option RegisterInfo → Nat → ByteOrder → Nat × Status)
    (reg_info : Option RegisterInfo) (dst_addr : Nat) (dst_len : Nat) : Status :=
  match process with
  | none => Status.invalidProcess
  | some p =>
      let gm := get_as_memory_data reg_info dst_len p.byteOrder
      let bytes_copied := gm.1
      if gm.2 = Status.success then
        if bytes_copied = 0 then
          Status.byteCopyFailed
        else
          let wm := p.writeMemory dst_addr bytes_copied
          if wm.1 ≠ bytes_copied then
            if wm.2 = Status.success then
              Status.shortWrite wm.1 bytes_copied
            else
              wm.2
          else
            wm.2
      else
        gm.2

/-! ### `RegisterContext::CopyFromRegisterContext` (claims C6, C7 and C10)

The two contexts and the thread's frame-zero context are modelled by the
data `CopyFromRegisterContext` actually consults: the two thread ids, this
context's register sets (`GetRegisterSet` — the counts are compared up
front, and the loop iterates this context's sets), the descriptor table, and
the `ReadRegister` behaviour of the source and frame-zero contexts.  The
embedding returns the boolean result together with the trace of register
reads attempted and of `WriteRegister` calls issued on this context. -/

/-- A register set (`lldb_private::RegisterSet`): a name and the indices of
its registers. -/
structure RegisterSet where
  name : String
  registers : List Nat

/-- Everything `CopyFromRegisterContext` consults. -/
structure CopyEnv where
  this_tid : Nat
  src_tid : Nat
  this_sets : List RegisterSet
  src_num_sets : Nat
  get_info : Nat → Option RegisterInfo
  src_read : RegisterInfo → Option RegisterValue
  frame0_read : RegisterInfo → Option RegisterValue

/-- Result of `CopyFromRegisterContext`: the boolean return value, the
indices of registers on which a `ReadRegister` was attempted, and the
`WriteRegister` calls issued (index, value written). -/
structure CopyResult where
  ret : Bool
  reads : List Nat
  writes : List (Nat × RegisterValue)

/-- One iteration of the inner loop of `CopyFromRegisterContext` for register
index `reg`: skip when the descriptor is absent or the register is a pseudo
register (`value_regs` non-empty); otherwise read from the source context,
falling back to the frame-zero context, and write whichever read succeeded. -/
def copyOneRegister (env : CopyEnv) (reg : Nat) : List Nat × List (Nat × RegisterValue) :=
  match env.get_info reg with
  | none => ([], [])
  | some ri =>
      if ri.value_regs ≠ [] then ([], [])
      else
        match env.src_read ri with
        | some v => ([reg], [(reg, v)])
        | none =>
            match env.frame0_read ri with
            | some v => ([reg], [(reg, v)])
            | none => ([reg], [])

/-- Embeds `RegisterContext::CopyFromRegisterContext`: fail before touching
any register when the thread ids differ or the register-set counts differ;
otherwise run the per-register copy over every set and return `true`. -/
def CopyFromRegisterContext (env : CopyEnv) : CopyResult :=
  if env.src_tid ≠ env.this_tid then ⟨false, [], []⟩
  else if env.src_num_sets ≠ env.this_sets.length then ⟨false, [], []⟩
  else
    let steps := env.this_sets.flatMap fun s => s.registers.map (copyOneRegister env)
    ⟨true, (steps.map Prod.fst).flatten, (steps.map Prod.snd).flatten⟩

/-! ### Program-counter accessors (claims C8 and C9)

`ReadRegister` and `WriteRegister` are pure virtual, backend-specific
primitives; they are modelled as a `Backend` over an explicit backend state
`σ`.  The remaining collaborators consulted by `GetPC`/`SetPC` —
`ConvertRegisterKindToRegisterNumber` (architecture-specific, abstract),
`GetRegisterInfoAtIndex`, the thread's frame lookup
`GetFrameWithConcreteFrameIndex` and the target's `GetOpcodeLoadAddress` —
are collected in `RegCtxEnv`. -/

/-- The abstract backend storage primitives: `ReadRegister` yields the value
(or fails), `WriteRegister` yields its boolean result and the new backend
state. -/
structure Backend (σ : Type) where
  read_register : σ → RegisterInfo → Option RegisterValue
  write_register : σ → RegisterInfo → RegisterValue → Bool × σ

/-- The collaborators of the PC accessors other than register storage.
`frame_at` models `Thread::GetFrameWithConcreteFrameIndex` (a frame handle or
absent); `target_opcode_load` models the optional target's
`GetOpcodeLoadAddress` on code addresses. -/
structure RegCtxEnv where
  convert : RegisterKind → Nat → Nat
  get_info : Nat → Option RegisterInfo
  frame_at : Nat → Option Nat
  concrete_frame_idx : Nat
  target_opcode_load : Option (Nat → Nat)

/-- Embeds `RegisterContext::WriteRegisterFromUnsigned(uint32_t, uint64_t)`
together with the `RegisterInfo*` overload it calls: reject
`LLDB_INVALID_REGNUM` and a missing descriptor, build the value with
`SetUInt` at the register's byte size, and delegate to `WriteRegister`. -/
def WriteRegisterFromUnsigned {σ : Type} (be : Backend σ) (env : RegCtxEnv) (s : σ)
    (reg : Nat) (uval : Nat) : Bool × σ :=
  if reg = LLDB_INVALID_REGNUM then (false, s)
  else
    match env.get_info reg with
    | none => (false, s)
    | some ri =>
        match RegisterValue.setUInt uval ri.byte_size with
        | some v => be.write_register s ri v
        | none => (false, s)

/-- Embeds `RegisterContext::ReadRegisterAsUnsigned(uint32_t, uint64_t)`
together with the `RegisterInfo*` overload it calls: the caller's
`fail_value` on an invalid number, a missing descriptor or a failed read,
otherwise the value as an unsigned integer. -/
def ReadRegisterAsUnsigned {σ : Type} (be : Backend σ) (env : RegCtxEnv) (s : σ)
    (reg : Nat) (fail_value : Nat) : Nat :=
  if reg ≠ LLDB_INVALID_REGNUM then
    match env.get_info reg with
    | some ri =>
        match be.read_register s ri with
        | some v => v.getAsUInt64
        | none => fail_value
    | none => fail_value
  else fail_value

/-- Observable effect of `SetPC` besides the register write: the boolean
result, the `StackFrame::ChangePC` notification issued (frame handle and new
pc), and whether `Thread::ClearStackFrames` ran. -/
structure SetPCResult where
  success : Bool
  notified_frame : Option (Nat × Nat)
  cleared_frames : Bool
deriving DecidableEq

/-- Embeds `RegisterContext::SetPC(uint64_t)`: resolve the generic PC role,
write the value, and on success notify the frame at the concrete frame index
of the PC change, or clear the thread's stack frames when no such frame
exists. -/
def SetPC {σ : Type} (be : Backend σ) (env : RegCtxEnv) (s : σ) (pc : Nat) :
    SetPCResult × σ :=
  let reg := env.convert RegisterKind.generic LLDB_REGNUM_GENERIC_PC
  let w := WriteRegisterFromUnsigned be env s reg pc
  if w.1 then
    match env.frame_at env.concrete_frame_idx with
    | some f => (⟨true, some (f, pc), false⟩, w.2)
    | none => (⟨true, none, true⟩, w.2)
  else
    (⟨false, none, false⟩, w.2)

/-- Embeds `RegisterContext::GetPC(uint64_t)`: resolve the generic PC role,
read the register as unsigned, and on success map the value through the
target's `GetOpcodeLoadAddress` when a target exists. -/
def GetPC {σ : Type} (be : Backend σ) (env : RegCtxEnv) (s : σ) (fail_value : Nat) : Nat :=
  let reg := env.convert RegisterKind.generic LLDB_REGNUM_GENERIC_PC
  let pc := ReadRegisterAsUnsigned be env s reg fail_value
  if pc ≠ fail_value then
    match env.target_opcode_load with
    | some load => load pc
    | none => pc
  else pc

/-- Backend state for the canonical storage backend: register values keyed by
the descriptor's LLDB register number. -/
def RegFile : Type := Nat → Option RegisterValue

/-- Modelled from the spec: a canonical realisation of the abstract
backend-specific `ReadRegister`/`WriteRegister` primitives ("delegates actual
storage access to an architecture/backend-specific read/write primitive"),
as a store keyed by the descriptor's LLDB register number in which a read
returns the last value written. -/
def storeBackend : Backend RegFile where
  read_register := fun s ri => s (ri.kinds RegisterKind.lldb)
  write_register := fun s ri v =>
    (true, fun i => if i = ri.kinds RegisterKind.lldb then some v else s i)

/-! ### Concrete sample data

Small concrete descriptor tables, backends and environments, used to
evaluate the embeddings at explicit inputs. -/

/-- An 8-byte program-counter descriptor: generic role `ProgramCounter`,
LLDB index 0, all other kinds invalid, not a pseudo register. -/
def pcInfo : RegisterInfo where
  name := "pc"
  alt_name := ""
  byte_size := 8
  kinds := fun k =>
    match k with
    | RegisterKind.generic => LLDB_REGNUM_GENERIC_PC
    | RegisterKind.lldb => 0
    | _ => LLDB_INVALID_REGNUM
  value_regs := []
  dynamic_size_dwarf_len := 0

/-- An 8-byte stack-pointer descriptor: generic role 1, LLDB index 1,
DWARF number 7, not a pseudo register. -/
def spInfo : RegisterInfo where
  name := "sp"
  alt_name := ""
  byte_size := 8
  kinds := fun k =>
    match k with
    | RegisterKind.generic => 1
    | RegisterKind.lldb => 1
    | RegisterKind.dwarf => 7
    | _ => LLDB_INVALID_REGNUM
  value_regs := []
  dynamic_size_dwarf_len := 0

/-- A pseudo-register descriptor (`value_regs` non-empty): the low 32 bits
of the register at LLDB index 1. -/
def wspInfo : RegisterInfo where
  name := "wsp"
  alt_name := ""
  byte_size := 4
  kinds := fun k =>
    match k with
    | RegisterKind.lldb => 2
    | _ => LLDB_INVALID_REGNUM
  value_regs := [1]
  dynamic_size_dwarf_len := 0

/-- A two-register descriptor table. -/
def demoTable : List RegisterInfo := [pcInfo, spInfo]

/-- A memory backend whose reads and writes always transfer every requested
byte and signal success. -/
def demoBackend : MemBackend where
  readMemory := fun _ len => (len, Status.success)
  writeMemory := fun _ len => (len, Status.success)
  byteOrder := ByteOrder.little

/-- A memory backend whose reads and writes transfer one byte fewer than
requested while still signalling success. -/
def demoShortBackend : MemBackend where
  readMemory := fun _ len => (len - 1, Status.success)
  writeMemory := fun _ len => (len - 1, Status.success)
  byteOrder := ByteOrder.little

/-- A stand-in for `RegisterValue::SetFromMemoryData` that succeeds with a
zero value of the transferred size. -/
def demoSetFromMemoryData (ri : RegisterInfo) (src_len : Nat) (_bo : ByteOrder) :
    RegisterValue × Status :=
  (⟨0, min src_len ri.byte_size⟩, Status.success)

/-- A stand-in for `RegisterValue::GetAsMemoryData` that copies `dst_len`
bytes and succeeds. -/
def demoGetAsMemoryData (_ri : Option RegisterInfo) (dst_len : Nat) (_bo : ByteOrder) :
    Nat × Status :=
  (dst_len, Status.success)

/-- A copy environment whose source context belongs to a different thread
than the destination context. -/
def demoCopyEnvBadTid : CopyEnv where
  this_tid := 1
  src_tid := 2
  this_sets := [⟨"general", [0, 1, 2]⟩]
  src_num_sets := 1
  get_info := fun i =>
    match i with
    | 0 => some pcInfo
    | 1 => some spInfo
    | 2 => some wspInfo
    | _ => none
  src_read := fun _ => some ⟨0, 8⟩
  frame0_read := fun _ => some ⟨0, 8⟩

/-- A copy environment satisfying the thread-identity and set-count
preconditions, in which the source can supply `pc`, only the frame-zero
context can supply `sp`, and the table also holds the pseudo register
`wsp`. -/
def demoCopyEnvOk : CopyEnv where
  this_tid := 1
  src_tid := 1
  this_sets := [⟨"general", [0, 1, 2]⟩]
  src_num_sets := 1
  get_info := fun i =>
    match i with
    | 0 => some pcInfo
    | 1 => some spInfo
    | 2 => some wspInfo
    | _ => none
  src_read := fun ri => if ri.name = "pc" then some ⟨16400, 8⟩ else none
  frame0_read := fun ri => if ri.name = "sp" then some ⟨512, 8⟩ else none

/-- A copy environment satisfying the preconditions in which every
individual register read fails. -/
def demoCopyEnvAllFail : CopyEnv where
  this_tid := 1
  src_tid := 1
  this_sets := [⟨"general", [0, 1, 2]⟩]
  src_num_sets := 1
  get_info := fun i =>
    match i with
    | 0 => some pcInfo
    | 1 => some spInfo
    | 2 => some wspInfo
    | _ => none
  src_read := fun _ => none
  frame0_read := fun _ => none

/-- A PC-accessor environment over `demoTable`: the generic PC role resolves
to register 0, there is no frame at the concrete frame index, and there is
no target. -/
def demoPCEnv : RegCtxEnv where
  convert := fun kind num =>
    match kind, num with
    | RegisterKind.generic, 0 => 0
    | _, _ => LLDB_INVALID_REGNUM
  get_info := fun i =>
    match i with
    | 0 => some pcInfo
    | 1 => some spInfo
    | _ => none
  frame_at := fun _ => none
  concrete_frame_idx := 0
  target_opcode_load := none

/-- The empty register file. -/
def emptyFile : RegFile := fun _ => none

/-! ## Theorems -/

/-- C1: for every register descriptor with a dynamic-size bytecode program,
`UpdateDynamicRegisterSize` maps an evaluator success with result 0 to
exactly 4, a success with result 1 to exactly 8, a success with any other
value to the descriptor's statically declared byte size, and an evaluator
failure to the statically declared byte size as well; by its very return
type (a plain byte count, never an error) evaluator failure is not
propagated to the caller. -/
theorem updateDynamicRegisterSize_spec (reg_info : RegisterInfo) :
    UpdateDynamicRegisterSize (some 0) reg_info = 4 ∧
    UpdateDynamicRegisterSize (some 1) reg_info = 8 ∧
    (∀ r : Int, r ≠ 0 → r ≠ 1 →
      UpdateDynamicRegisterSize (some r) reg_info = reg_info.byte_size) ∧
    UpdateDynamicRegisterSize none reg_info = reg_info.byte_size := by
  refine ⟨rfl, rfl, ?_, rfl⟩
  intro r h0 h1
  simp [UpdateDynamicRegisterSize, h0, h1]

/-- Witness for C1 at the concrete descriptor `pcInfo` (static byte size 8)
and the evaluator outcomes 0, 1, 42 and failure. -/
theorem updateDynamicRegisterSize_spec_witness :
    UpdateDynamicRegisterSize (some 0) pcInfo = 4 ∧
    UpdateDynamicRegisterSize (some 1) pcInfo = 8 ∧
    UpdateDynamicRegisterSize (some 42) pcInfo = pcInfo.byte_size ∧
    UpdateDynamicRegisterSize none pcInfo = pcInfo.byte_size := by
  obtain ⟨h1, h2, h3, h4⟩ := updateDynamicRegisterSize_spec pcInfo
  exact ⟨h1, h2, h3 42 (by decide) (by decide), h4⟩

/-- C2: `InvalidateIfNeeded` invalidates the cached register values exactly
when `force` is set, the owning process is gone, or the cached stop id
differs from the process's current stop id; after invalidating it records
the process's stop id (`UINT32_MAX` when the process is gone) and otherwise
leaves the cached id unchanged; and a second call with `force = false`
against an unchanged process stop id never invalidates again, so two
successive unforced calls without an intervening stop-id change invalidate
at most once. -/
theorem invalidateIfNeeded_spec (process : Option Nat) (force : Bool) (m_stop_id : Nat) :
    ((InvalidateIfNeeded process force m_stop_id).1 = true ↔
      (force = true ∨ process = none ∨
        ∃ sid, process = some sid ∧ sid ≠ m_stop_id)) ∧
    ((InvalidateIfNeeded process force m_stop_id).1 = true →
      (InvalidateIfNeeded process force m_stop_id).2 =
        (match process with
         | some sid => sid
         | none => UINT32_MAX)) ∧
    ((InvalidateIfNeeded process force m_stop_id).1 = false →
      (InvalidateIfNeeded process force m_stop_id).2 = m_stop_id) ∧
    (∀ sid,
      (InvalidateIfNeeded (some sid) false
        (InvalidateIfNeeded (some sid) false m_stop_id).2).1 = false) := by
  refine ⟨?_, ?_, ?_, ?_⟩
  · cases process with
    | none => cases force <;> simp [InvalidateIfNeeded]
    | some sid =>
        cases force <;>
          by_cases h : sid = m_stop_id <;>
            simp [InvalidateIfNeeded, h]
  · cases process with
    | none => cases force <;> simp [InvalidateIfNeeded]
    | some sid =>
        cases force <;>
          by_cases h : sid = m_stop_id <;>
            simp [InvalidateIfNeeded, h]
  · cases process with
    | none => cases force <;> simp [InvalidateIfNeeded]
    | some sid =>
        cases force <;>
          by_cases h : sid = m_stop_id <;>
            simp [InvalidateIfNeeded, h]
  · intro sid
    by_cases h : sid = m_stop_id <;>
      simp [InvalidateIfNeeded, h]

/-- Witness for C2 at concrete inputs: with a live process at stop id 5 and
a cached id 3, an unforced call invalidates and records 5, and the immediate
second unforced call does not invalidate again. -/
theorem invalidateIfNeeded_spec_witness :
    (InvalidateIfNeeded (some 5) false 3).1 = true ∧
    (InvalidateIfNeeded (some 5) false 3).2 = 5 ∧
    (InvalidateIfNeeded (some 5) false (InvalidateIfNeeded (some 5) false 3).2).1 = false := by
  obtain ⟨hiff, hrec, _, htwice⟩ := invalidateIfNeeded_spec (some 5) false 3
  have h1 : (InvalidateIfNeeded (some 5) false 3).1 = true :=
    hiff.mpr (Or.inr (Or.inr ⟨5, rfl, by decide⟩))
  exact ⟨h1, hrec h1, htwice 5⟩

/-- C3: `ConvertBetweenRegisterKinds` succeeds with value `t` exactly when
the first descriptor mapping `source_rk` to `source_regnum` (the first match
of the linear scan, as `List.find?`) exists, maps `target_rk` to `t`, and
`t` is not the invalid sentinel; and for a (kind, number) pair present in no
descriptor the scan reports not-found and fabricates no number. -/
theorem convertBetweenRegisterKinds_spec (regs : List RegisterInfo)
    (source_rk : RegisterKind) (source_regnum : Nat) (target_rk : RegisterKind) :
    (∀ t, ConvertBetweenRegisterKinds regs source_rk source_regnum target_rk = some t ↔
      ∃ ri, regs.find? (fun r => r.kinds source_rk == source_regnum) = some ri ∧
        ri.kinds target_rk = t ∧ t ≠ LLDB_INVALID_REGNUM) ∧
    ((∀ ri ∈ regs, ri.kinds source_rk ≠ source_regnum) →
      ConvertBetweenRegisterKinds regs source_rk source_regnum target_rk = none) := by
  induction regs with
  | nil =>
      constructor
      · intro t
        simp [ConvertBetweenRegisterKinds]
      · intro _
        rfl
  | cons head tail ih =>
      constructor
      · intro t
        by_cases hh : head.kinds source_rk = source_regnum
        · rw [List.find?_cons_of_pos _ (by simpa using hh)]
          by_cases ht : head.kinds target_rk ≠ LLDB_INVALID_REGNUM
          · simp only [ConvertBetweenRegisterKinds, if_pos hh, if_pos ht,
              Option.some.injEq]
            constructor
            · rintro rfl
              exact ⟨head, rfl, rfl, ht⟩
            · rintro ⟨ri, hri, hmap, _⟩
              obtain rfl : head = ri := by simpa using hri
              exact hmap
          · simp only [ConvertBetweenRegisterKinds, if_pos hh, if_neg ht]
            constructor
            · intro h
              exact absurd h (by simp)
            · rintro ⟨ri, hri, hmap, htv⟩
              obtain rfl : head = ri := by simpa using hri
              rw [hmap] at ht
              exact absurd htv (by simpa using ht)
        · rw [List.find?_cons_of_neg _ (by simpa using hh)]
          simpa only [ConvertBetweenRegisterKinds, if_neg hh] using ih.1 t
      · intro hnone
        have hh : ¬head.kinds source_rk = source_regnum :=
          hnone head (List.mem_cons_self head tail)
        simp only [ConvertBetweenRegisterKinds, if_neg hh]
        exact ih.2 fun ri hri => hnone ri (List.mem_cons_of_mem head hri)

/-- Witness for C3 on the concrete table `demoTable`: translating the
stack pointer's DWARF number 7 to the LLDB kind yields 1; translating it to
the EH-frame kind (mapped to the invalid sentinel) fails; and translating
the absent DWARF number 99 reports not-found. -/
theorem convertBetweenRegisterKinds_spec_witness :
    ConvertBetweenRegisterKinds demoTable RegisterKind.dwarf 7 RegisterKind.lldb = some 1 ∧
    ConvertBetweenRegisterKinds demoTable RegisterKind.dwarf 7 RegisterKind.ehframe = none ∧
    ConvertBetweenRegisterKinds demoTable RegisterKind.dwarf 99 RegisterKind.lldb = none := by
  refine ⟨?_, ?_, ?_⟩
  · exact (convertBetweenRegisterKinds_spec demoTable RegisterKind.dwarf 7
      RegisterKind.lldb).1 1 |>.mpr ⟨spInfo, rfl, rfl, by decide⟩
  · decide
  · exact (convertBetweenRegisterKinds_spec demoTable RegisterKind.dwarf 99
      RegisterKind.lldb).2 (by decide)

/-- C4: whenever the requested length exceeds the fixed `RegisterValue`
capacity or exceeds the descriptor's byte size, `ReadRegisterValueFromMemory`
returns a non-success status, leaves the destination register value exactly
as it was, and never consults the process memory backend. -/
theorem readRegisterValueFromMemory_size_reject
    (process : Option MemBackend)
    (sfmd : RegisterInfo → Nat → ByteOrder → RegisterValue × Status)
    (ri : RegisterInfo) (src_addr src_len : Nat) (reg_value : RegisterValue)
    (h : src_len > kMaxRegisterByteSize ∨ src_len > ri.byte_size) :
    (ReadRegisterValueFromMemory process sfmd (some ri) src_addr src_len
        reg_value).error ≠ Status.success ∧
    (ReadRegisterValueFromMemory process sfmd (some ri) src_addr src_len
        reg_value).reg_value = reg_value ∧
    (ReadRegisterValueFromMemory process sfmd (some ri) src_addr src_len
        reg_value).mem_consulted = false := by
  by_cases hcap : src_len > kMaxRegisterByteSize
  · simp [ReadRegisterValueFromMemory, hcap]
  · have hsize : src_len > ri.byte_size := h.resolve_left hcap
    simp [ReadRegisterValueFromMemory, hcap, hsize]

/-- Witness for C4 at a concrete input: asking the 8-byte register `pc` to
receive 16 bytes (within the 64-byte buffer capacity but beyond the
register's size) fails, leaves the destination value `⟨3, 8⟩` untouched and
does not consult the (fully functional) backend. -/
theorem readRegisterValueFromMemory_size_reject_witness :
    (ReadRegisterValueFromMemory (some demoBackend) demoSetFromMemoryData
        (some pcInfo) 4096 16 ⟨3, 8⟩).error ≠ Status.success ∧
    (ReadRegisterValueFromMemory (some demoBackend) demoSetFromMemoryData
        (some pcInfo) 4096 16 ⟨3, 8⟩).reg_value = ⟨3, 8⟩ ∧
    (ReadRegisterValueFromMemory (some demoBackend) demoSetFromMemoryData
        (some pcInfo) 4096 16 ⟨3, 8⟩).mem_consulted = false :=
  readRegisterValueFromMemory_size_reject (some demoBackend) demoSetFromMemoryData
    pcInfo 4096 16 ⟨3, 8⟩ (Or.inr (by decide))

/-- C5: a short transfer is an error distinct from a backend failure.  For
the read path: when the size checks pass and the backend returns fewer bytes
than requested while signalling success, `ReadRegisterValueFromMemory`
returns the short-read error, which is neither success nor any
backend-reported error.  For the write path: when the value serializes to a
positive number of bytes and the backend writes fewer of them while
signalling success, `WriteRegisterValueToMemory` returns the short-write
error, again neither success nor any backend-reported error. -/
theorem shortTransfer_reported
    (be : MemBackend)
    (sfmd : RegisterInfo → Nat → ByteOrder → RegisterValue × Status)
    (gamd : Option RegisterInfo → Nat → ByteOrder → Nat × Status)
    (ri : RegisterInfo) (src_addr src_len : Nat) (reg_value : RegisterValue)
    (dst_addr dst_len : Nat) (bytes_read bytes_copied bytes_written : Nat) :
    (src_len ≤ kMaxRegisterByteSize → src_len ≤ ri.byte_size →
      be.readMemory src_addr src_len = (bytes_read, Status.success) →
      bytes_read ≠ src_len →
      (ReadRegisterValueFromMemory (some be) sfmd (some ri) src_addr src_len
          reg_value).error = Status.shortRead bytes_read src_len ∧
      Status.shortRead bytes_read src_len ≠ Status.success ∧
      (∀ msg, Status.shortRead bytes_read src_len ≠ Status.backendError msg)) ∧
    (gamd (some ri) dst_len be.byteOrder = (bytes_copied, Status.success) →
      bytes_copied ≠ 0 →
      be.writeMemory dst_addr bytes_copied = (bytes_written, Status.success) →
      bytes_written ≠ bytes_copied →
      WriteRegisterValueToMemory (some be) gamd (some ri) dst_addr dst_len =
        Status.shortWrite bytes_written bytes_copied ∧
      Status.shortWrite bytes_written bytes_copied ≠ Status.success ∧
      (∀ msg, Status.shortWrite bytes_written bytes_copied ≠ Status.backendError msg)) := by
  constructor
  · intro hcap hsize hread hshort
    refine ⟨?_, by simp, by simp⟩
    simp [ReadRegisterValueFromMemory, Nat.not_lt.mpr hcap, Nat.not_lt.mpr hsize,
      hread, hshort]
  · intro hconv hpos hwrite hshort
    refine ⟨?_, by simp, by simp⟩
    simp [WriteRegisterValueToMemory, hconv, hpos, hwrite, hshort]

/-- Witness for C5 at concrete inputs over the short-transferring backend:
reading 8 bytes transfers only 7 and yields the short-read error, and
writing the 8 serialized bytes transfers only 7 and yields the short-write
error. -/
theorem shortTransfer_reported_witness :
    (ReadRegisterValueFromMemory (some demoShortBackend) demoSetFromMemoryData
        (some pcInfo) 4096 8 ⟨3, 8⟩).error = Status.shortRead 7 8 ∧
    Status.shortRead 7 8 ≠ Status.success ∧
    WriteRegisterValueToMemory (some demoShortBackend) demoGetAsMemoryData
        (some pcInfo) 4096 8 = Status.shortWrite 7 8 ∧
    Status.shortWrite 7 8 ≠ Status.success := by
  obtain ⟨hr, hw⟩ := shortTransfer_reported demoShortBackend demoSetFromMemoryData
    demoGetAsMemoryData pcInfo 4096 8 ⟨3, 8⟩ 4096 8 7 8 7
  obtain ⟨hr1, hr2, _⟩ := hr (by decide) (by decide) rfl (by decide)
  obtain ⟨hw1, hw2, _⟩ := hw rfl (by decide) rfl (by decide)
  exact ⟨hr1, hr2, hw1, hw2⟩

/-- Helper: membership in the write trace of one inner-loop iteration of
`CopyFromRegisterContext`, characterised by the descriptor lookup, the
pseudo-register exclusion and the source/frame-zero read fallback. -/
theorem copyOneRegister_snd_mem (env : CopyEnv) (r reg : Nat) (v : RegisterValue) :
    (reg, v) ∈ (copyOneRegister env r).2 ↔
      r = reg ∧ ∃ ri, env.get_info r = some ri ∧ ri.value_regs = [] ∧
        (env.src_read ri = some v ∨
          (env.src_read ri = none ∧ env.frame0_read ri = some v)) := by
  unfold copyOneRegister
  cases hinfo : env.get_info r with
  | none => simp
  | some ri =>
      by_cases hv : ri.value_regs = []
      · simp only [hv, ne_eq, not_true_eq_false, if_false, ite_false]
        cases hs : env.src_read ri with
        | some w =>
            simp [hs, hv, Prod.ext_iff, and_comm, eq_comm]
        | none =>
            cases hf : env.frame0_read ri with
            | some w => simp [hs, hf, hv, Prod.ext_iff, and_comm, eq_comm]
            | none => simp [hs, hf]
      · simp [hv]

/-- Helper: membership in the full write trace of `CopyFromRegisterContext`
once the thread-identity and set-count guards have passed. -/
theorem copyFromRegisterContext_mem_writes (env : CopyEnv)
    (h1 : env.src_tid = env.this_tid) (h2 : env.src_num_sets = env.this_sets.length)
    (p : Nat × RegisterValue) :
    (p ∈ (CopyFromRegisterContext env).writes ↔
      ∃ s ∈ env.this_sets, ∃ r ∈ s.registers, p ∈ (copyOneRegister env r).2) := by
  unfold CopyFromRegisterContext
  rw [if_neg (by simp [h1]), if_neg (by simp [h2])]
  simp only [List.mem_flatten, List.mem_map, List.mem_flatMap]
  constructor
  · rintro ⟨l, ⟨pr, ⟨s, hs, r, hr, rfl⟩, rfl⟩, hp⟩
    exact ⟨s, hs, r, hr, hp⟩
  · rintro ⟨s, hs, r, hr, hp⟩
    exact ⟨(copyOneRegister env r).2, ⟨copyOneRegister env r, ⟨s, hs, r, hr, rfl⟩, rfl⟩, hp⟩

/-- C7: under the guards of `CopyFromRegisterContext`, register `reg` is
written with value `v` exactly when `reg` occurs in one of this context's
register sets, its descriptor exists and is not a pseudo register (empty
`value_regs`), and `v` is the value read from the source context or — when
the source read fails — from the thread's frame-zero context.  In
particular a pseudo register is never written, and a register neither
context can read is left untouched. -/
theorem copyFromRegisterContext_writes_spec (env : CopyEnv)
    (h1 : env.src_tid = env.this_tid) (h2 : env.src_num_sets = env.this_sets.length)
    (reg : Nat) (v : RegisterValue) :
    ((reg, v) ∈ (CopyFromRegisterContext env).writes ↔
      (∃ s ∈ env.this_sets, reg ∈ s.registers) ∧
      ∃ ri, env.get_info reg = some ri ∧ ri.value_regs = [] ∧
        (env.src_read ri = some v ∨
          (env.src_read ri = none ∧ env.frame0_read ri = some v))) := by
  rw [copyFromRegisterContext_mem_writes env h1 h2]
  simp only [copyOneRegister_snd_mem]
  constructor
  · rintro ⟨s, hs, r, hr, rfl, hP⟩
    exact ⟨⟨s, hs, hr⟩, hP⟩
  · rintro ⟨⟨s, hs, hr⟩, hP⟩
    exact ⟨s, hs, reg, hr, rfl, hP⟩

/-- Witness for C7 on `demoCopyEnvOk`: the non-pseudo `pc` (index 0) is
written with the source's value, the non-pseudo `sp` (index 1) is written
with the frame-zero fallback value, and the pseudo register `wsp` (index 2)
is never written. -/
theorem copyFromRegisterContext_writes_spec_witness :
    ((0, (⟨16400, 8⟩ : RegisterValue)) ∈ (CopyFromRegisterContext demoCopyEnvOk).writes) ∧
    ((1, (⟨512, 8⟩ : RegisterValue)) ∈ (CopyFromRegisterContext demoCopyEnvOk).writes) ∧
    (∀ v : RegisterValue, ¬((2, v) ∈ (CopyFromRegisterContext demoCopyEnvOk).writes)) := by
  refine ⟨?_, ?_, ?_⟩
  · exact (copyFromRegisterContext_writes_spec demoCopyEnvOk rfl rfl 0 ⟨16400, 8⟩).mpr
      ⟨⟨⟨"general", [0, 1, 2]⟩, by simp [demoCopyEnvOk], by simp⟩,
        pcInfo, rfl, rfl, Or.inl rfl⟩
  · exact (copyFromRegisterContext_writes_spec demoCopyEnvOk rfl rfl 1 ⟨512, 8⟩).mpr
      ⟨⟨⟨"general", [0, 1, 2]⟩, by simp [demoCopyEnvOk], by simp⟩,
        spInfo, rfl, rfl, Or.inr ⟨rfl, rfl⟩⟩
  · intro v hmem
    have h := (copyFromRegisterContext_writes_spec demoCopyEnvOk rfl rfl 2 v).mp hmem
    obtain ⟨-, ri, hri, hregs, -⟩ := h
    obtain rfl : wspInfo = ri := by simpa [demoCopyEnvOk] using hri
    exact absurd hregs (by decide)

/-- C6: `CopyFromRegisterContext` between contexts whose threads have
different ids, or whose register-set counts differ, returns `false` with an
empty read trace and an empty write trace — failure is immediate and no
register is read or written. -/
theorem copyFromRegisterContext_guard (env : CopyEnv)
    (h : env.src_tid ≠ env.this_tid ∨ env.src_num_sets ≠ env.this_sets.length) :
    CopyFromRegisterContext env = ⟨false, [], []⟩ := by
  unfold CopyFromRegisterContext
  rcases h with h | h
  · rw [if_pos h]
  · by_cases h1 : env.src_tid ≠ env.this_tid
    · rw [if_pos h1]
    · rw [if_neg h1, if_pos h]

/-- Witness for C6 on the concrete environment whose source context belongs
to thread 2 while the destination belongs to thread 1. -/
theorem copyFromRegisterContext_guard_witness :
    CopyFromRegisterContext demoCopyEnvBadTid =
      ⟨false, [], []⟩ :=
  copyFromRegisterContext_guard demoCopyEnvBadTid (Or.inl (by decide))

/-- C10: whenever the thread-identity and register-set-count preconditions
hold, `CopyFromRegisterContext` returns `true` — for every behaviour of the
source, frame-zero and destination register reads, including one where every
read fails and hence nothing at all is written; the results of the
individual `WriteRegister` calls do not influence the returned value. -/
theorem copyFromRegisterContext_returns_true (env : CopyEnv)
    (h1 : env.src_tid = env.this_tid) (h2 : env.src_num_sets = env.this_sets.length) :
    (CopyFromRegisterContext env).ret = true := by
  unfold CopyFromRegisterContext
  rw [if_neg (by simp [h1]), if_neg (by simp [h2])]

/-- Witness for C10 on the concrete environment in which every per-register
read fails: the call still returns `true` (and writes nothing). -/
theorem copyFromRegisterContext_returns_true_witness :
    (CopyFromRegisterContext demoCopyEnvAllFail).ret = true ∧
    (CopyFromRegisterContext demoCopyEnvAllFail).writes = [] := by
  refine ⟨copyFromRegisterContext_returns_true demoCopyEnvAllFail rfl rfl, ?_⟩
  rfl

/-- C8: when the program-counter write of `SetPC` succeeds, the frame object
at the context's concrete frame index — when it exists — is notified of the
PC change and the stack frames are not cleared; when no such frame exists,
the thread's cached stack-frame list is cleared and no frame is notified;
and when the register write fails, neither effect occurs. -/
theorem setPC_frame_effects {σ : Type} (be : Backend σ) (env : RegCtxEnv)
    (s : σ) (pc : Nat) :
    ((SetPC be env s pc).1.success = true →
      (∀ f, env.frame_at env.concrete_frame_idx = some f →
        (SetPC be env s pc).1.notified_frame = some (f, pc) ∧
        (SetPC be env s pc).1.cleared_frames = false) ∧
      (env.frame_at env.concrete_frame_idx = none →
        (SetPC be env s pc).1.notified_frame = none ∧
        (SetPC be env s pc).1.cleared_frames = true)) ∧
    ((SetPC be env s pc).1.success = false →
      (SetPC be env s pc).1.notified_frame = none ∧
      (SetPC be env s pc).1.cleared_frames = false) := by
  unfold SetPC
  cases hw : (WriteRegisterFromUnsigned be env s
      (env.convert RegisterKind.generic LLDB_REGNUM_GENERIC_PC) pc).1 with
  | true =>
      cases hf : env.frame_at env.concrete_frame_idx with
      | some f => simp [hw, hf]
      | none => simp [hw, hf]
  | false => simp [hw]

/-- Witness for C8 over the canonical storage backend and `demoPCEnv`, whose
frame lookup finds no frame at the concrete frame index: the write of pc
0x4010 succeeds, no frame is notified, and the cached frame list is
cleared. -/
theorem setPC_frame_effects_witness :
    (SetPC storeBackend demoPCEnv emptyFile 16400).1.success = true ∧
    (SetPC storeBackend demoPCEnv emptyFile 16400).1.notified_frame = none ∧
    (SetPC storeBackend demoPCEnv emptyFile 16400).1.cleared_frames = true := by
  have hsucc : (SetPC storeBackend demoPCEnv emptyFile 16400).1.success = true := rfl
  have h := ((setPC_frame_effects storeBackend demoPCEnv emptyFile 16400).1 hsucc).2 rfl
  exact ⟨hsucc, h.1, h.2⟩

/-- C9: for a context whose generic ProgramCounter role resolves to a valid
register with an existing descriptor of at least two bytes, over the
canonical storage backend, and with a target whose opcode-load-address map
fixes 0x4010 (or no target at all), `SetPC` with 0x4010 succeeds and a
subsequent `GetPC` with the default fail value returns exactly 0x4010. -/
theorem setPC_getPC_roundtrip (env : RegCtxEnv) (file : RegFile) (ri : RegisterInfo)
    (h1 : env.get_info (env.convert RegisterKind.generic LLDB_REGNUM_GENERIC_PC) = some ri)
    (h2 : env.convert RegisterKind.generic LLDB_REGNUM_GENERIC_PC ≠ LLDB_INVALID_REGNUM)
    (h3 : 2 ≤ ri.byte_size)
    (h4 : ∀ load, env.target_opcode_load = some load → load 16400 = 16400) :
    (SetPC storeBackend env file 16400).1.success = true ∧
    GetPC storeBackend env (SetPC storeBackend env file 16400).2
      LLDB_INVALID_ADDRESS = 16400 := by
  have hmod : 16400 % 2 ^ (8 * ri.byte_size) = 16400 := by
    apply Nat.mod_eq_of_lt
    calc 16400 < 2 ^ (8 * 2) := by decide
    _ ≤ 2 ^ (8 * ri.byte_size) :=
      Nat.pow_le_pow_right (by decide) (Nat.mul_le_mul_left 8 h3)
  have hwrite : WriteRegisterFromUnsigned storeBackend env file
      (env.convert RegisterKind.generic LLDB_REGNUM_GENERIC_PC) 16400 =
      (true, fun i => if i = ri.kinds RegisterKind.lldb
        then some ⟨16400, ri.byte_size⟩ else file i) := by
    unfold WriteRegisterFromUnsigned
    rw [if_neg h2, h1]
    simp [RegisterValue.setUInt, hmod, storeBackend]
  have hset : SetPC storeBackend env file 16400 =
      (match env.frame_at env.concrete_frame_idx with
       | some f => (⟨true, some (f, 16400), false⟩, fun i =>
           if i = ri.kinds RegisterKind.lldb then some ⟨16400, ri.byte_size⟩ else file i)
       | none => (⟨true, none, true⟩, fun i =>
           if i = ri.kinds RegisterKind.lldb then some ⟨16400, ri.byte_size⟩ else file i)) := by
    unfold SetPC
    dsimp only
    rw [hwrite]
    cases env.frame_at env.concrete_frame_idx <;> rfl
  have hstate : (SetPC storeBackend env file 16400).2 = fun i =>
      if i = ri.kinds RegisterKind.lldb then some ⟨16400, ri.byte_size⟩ else file i := by
    rw [hset]
    cases env.frame_at env.concrete_frame_idx <;> rfl
  constructor
  · rw [hset]
    cases env.frame_at env.concrete_frame_idx <;> rfl
  · rw [hstate]
    unfold GetPC ReadRegisterAsUnsigned
    dsimp only
    rw [if_pos h2, h1]
    simp only [storeBackend, RegisterValue.getAsUInt64, if_pos rfl, if_true]
    rw [if_pos (by decide : (16400 : Nat) ≠ LLDB_INVALID_ADDRESS)]
    cases hload : env.target_opcode_load with
    | some load => exact h4 load hload
    | none => rfl

/-- Witness for C9 on the concrete environment `demoPCEnv` (generic PC role
resolves to register 0, descriptor `pcInfo` of 8 bytes, no target) starting
from the empty register file. -/
theorem setPC_getPC_roundtrip_witness :
    (SetPC storeBackend demoPCEnv emptyFile 16400).1.success = true ∧
    GetPC storeBackend demoPCEnv (SetPC storeBackend demoPCEnv emptyFile 16400).2
      LLDB_INVALID_ADDRESS = 16400 :=
  setPC_getPC_roundtrip demoPCEnv emptyFile pcInfo rfl (by decide) (by decide)
    (fun load hload => by simp [demoPCEnv] at hload)

end LLDBReg
